import Mathlib

/-
Verification of the kabaddi chatbot (src/llm.py, class TrueLLM).

Python strings are modelled as `List Char`; every text operation of the
source (str.lower, str.strip, str.split, `pat in s` substring tests, the
regular expressions used by the code, re.split, re.findall) is embedded as
an executable function on `List Char`.  The regular expressions of the
source are all of the restricted shape "literal (.* literal)*" or a
literal with \s+/\s*/\d+ classes between literals; each is embedded by an
explicit scanner whose comment names the regex it implements.
-/

set_option maxRecDepth 4000

abbrev Str := List Char

/-- Shorthand turning a Lean string literal into the `List Char` model. -/
def str (s : String) : Str := s.toList

/-- Python str.lower, restricted to the ASCII texts of this program. -/
def lowerStr (l : Str) : Str := l.map Char.toLower

/-- Whitespace class of Python re \s and str.split (ASCII part). -/
def isWsB (c : Char) : Bool :=
  c == ' ' || c == '\t' || c == '\n' || c == '\r' || c == '\x0b' || c == '\x0c'

/-- Python str.strip: drop whitespace from both ends. -/
def stripChars (l : Str) : Str :=
  ((l.dropWhile isWsB).reverse.dropWhile isWsB).reverse

/-- Characters kept by re.sub(r"[^a-z0-9\s\.\?\!]", "", text) after lowering. -/
def allowedTokChar (c : Char) : Bool :=
  (decide ('a' ≤ c) && decide (c ≤ 'z')) || c.isDigit || isWsB c ||
    c == '.' || c == '?' || c == '!'

/-- Worker for whitespace splitting; acc is the current token, reversed. -/
def wsSplitGo : Str → Str → List Str
  | [], acc => if acc.isEmpty then [] else [acc.reverse]
  | c :: cs, acc =>
    if isWsB c then
      if acc.isEmpty then wsSplitGo cs [] else acc.reverse :: wsSplitGo cs []
    else wsSplitGo cs (c :: acc)

/-- Python str.split() with no argument: split on whitespace runs, no empties. -/
def wsSplit (l : Str) : List Str := wsSplitGo l []

/-- tokenize(text) of the source: lower, strip disallowed chars, split. -/
def tokenize (t : Str) : List Str :=
  wsSplit ((lowerStr t).filter allowedTokChar)

/-- Worker for re.findall(r"\d+"): acc is the current digit run, reversed. -/
def digitRunsGo : Str → Str → List Str
  | [], acc => if acc.isEmpty then [] else [acc.reverse]
  | c :: cs, acc =>
    if c.isDigit then digitRunsGo cs (c :: acc)
    else if acc.isEmpty then digitRunsGo cs [] else acc.reverse :: digitRunsGo cs []

/-- re.findall(r"\d+", s): the maximal digit substrings, in order. -/
def digitRuns (l : Str) : List Str := digitRunsGo l []

/-- Sentence-terminator class [.!?] of re.split in find_relevant_context. -/
def isPunctC (c : Char) : Bool := c == '.' || c == '!' || c == '?'

/-- Split at every [.!?] character.  re.split(r"[.!?]+", s) merges runs of
terminators, producing fewer empty pieces; since the caller discards every
piece that is blank after strip, the surviving pieces are identical. -/
def splitOnPunct : Str → List Str
  | [] => [[]]
  | c :: cs =>
    if isPunctC c then [] :: splitOnPunct cs
    else
      match splitOnPunct cs with
      | [] => [[c]]
      | p :: ps => (c :: p) :: ps

/-- pat.isPrefixOf l as plain recursion on characters. -/
def isPre : Str → Str → Bool
  | [], _ => true
  | _ :: _, [] => false
  | p :: ps, c :: cs => p == c && isPre ps cs

/-- Python substring test `pat in l`. -/
def containsSub (l : Str) (pat : Str) : Bool :=
  match l with
  | [] => isPre pat []
  | _ :: cs => isPre pat l || containsSub cs pat

/-- Remainder of l after the first occurrence of pat, if any. -/
def afterSub (l : Str) (pat : Str) : Option Str :=
  match l with
  | [] => if isPre pat [] then some [] else none
  | c :: cs =>
    if isPre pat (c :: cs) then some ((c :: cs).drop pat.length)
    else afterSub cs pat

/-- re.search for a pattern of literals separated by .* : each literal is
found in order, each search resuming after the end of the previous hit. -/
def inOrder (l : Str) : List Str → Bool
  | [] => true
  | p :: ps =>
    match afterSub l p with
    | none => false
    | some rest => inOrder rest ps

/-- any(w in l for w in pats). -/
def anySub (l : Str) (pats : List Str) : Bool := pats.any (fun p => containsSub l p)

/-- Match of re r"how\s+many" at the current position, then .*player. -/
def howManyAt (l : Str) : Bool :=
  isPre (str "how") l &&
    (let r := l.drop 3
     !(r.takeWhile isWsB).isEmpty &&
       (let r2 := r.dropWhile isWsB
        isPre (str "many") r2 && containsSub (r2.drop 4) (str "player")))

/-- re.search(r"how\s+many.*player", l). -/
def howManyMatch : Str → Bool
  | [] => false
  | c :: cs => howManyAt (c :: cs) || howManyMatch cs

/-- Match of re r"\d+\s*meters" at the current position. -/
def digitsMetersAt (l : Str) : Bool :=
  match l with
  | [] => false
  | c :: cs =>
    c.isDigit && isPre (str "meters") (((c :: cs).dropWhile Char.isDigit).dropWhile isWsB)

/-- re.search(r"\d+\s*meters", l). -/
def digitsMeters : Str → Bool
  | [] => false
  | c :: cs => digitsMetersAt (c :: cs) || digitsMeters cs

/-- Cardinality of set(a) ∩ set(b) for token lists. -/
def interCard (a b : List Str) : Nat :=
  (a.dedup.filter (fun t => decide (t ∈ b))).length

/-- Python " ".join. -/
def joinSp (l : List Str) : Str := List.intercalate (str " ") l

/-- response.endswith(pat). -/
def endsWithL (l : Str) (pat : Str) : Bool := isPre pat.reverse l.reverse

/-- KABADDI_CORPUS of the source: the fixed list of passages handed to
learn_from_corpus and stored in self.corpus. -/
def KABADDI_CORPUS : List Str := [
  str "Kabaddi is a contact team sport that originated in ancient India. The sport is played between two teams.",
  str "In kabaddi two teams of seven players each compete against each other. Each team takes turns sending a raider.",
  str "The raider enters the opponent\x27s half of the court and attempts to tag as many defenders as possible.",
  str "While raiding the player must hold their breath and continuously chant kabaddi kabaddi kabaddi.",
  str "If the raider stops chanting kabaddi or takes a breath they are declared out.",
  str "Defenders try to stop the raider by tackling and catching them before they return.",
  str "The kabaddi court measures 13 meters by 10 meters for men\x27s matches.",
  str "For women\x27s kabaddi the court is smaller at 12 meters by 8 meters.",
  str "The court is divided into two halves by a mid-line and has bonus lines and baulk lines.",
  str "Famous kabaddi players include Pardeep Narwal who is known as the Record Breaker.",
  str "Pardeep Narwal holds the record for most raid points in Pro Kabaddi League history.",
  str "Anup Kumar was one of the best kabaddi captains and led India to many victories.",
  str "Pawan Sehrawat is called the Hi-Flyer because of his jumping ability and raiding skills.",
  str "Rahul Chaudhari has scored over 900 points in his kabaddi career.",
  str "Fazel Atrachali from Iran is known as the Iranian Wall for his defensive abilities.",
  str "The best raiders in kabaddi include Pardeep Narwal, Pawan Sehrawat, and Naveen Kumar.",
  str "Top defenders include Fazel Atrachali, Sandeep Narwal, and Manjeet Chhillar.",
  str "Pro Kabaddi League or PKL started in 2014 and revolutionized the sport in India.",
  str "PKL has 12 teams including Patna Pirates, U Mumba, Bengaluru Bulls, and Dabang Delhi.",
  str "Patna Pirates has won the most PKL titles with three championships.",
  str "Each kabaddi match consists of two halves of 20 minutes each.",
  str "There is a 5 minute break between the two halves of a kabaddi match.",
  str "Each raid in kabaddi can last for a maximum of 30 seconds.",
  str "If a raider tags defenders and returns successfully they score points.",
  str "Raiders score one point for each defender they tag.",
  str "When the entire defending team is eliminated it is called an All Out.",
  str "An All Out gives the attacking team two bonus points.",
  str "A Super Raid is when a raider scores three or more points in a single raid.",
  str "Defenders score points by successfully catching and stopping the raider.",
  str "A Super Tackle gives defenders one extra point when three or fewer defenders catch a raider.",
  str "Kabaddi originated in India more than 4000 years ago as a way to train warriors.",
  str "The sport was popular in Punjab, Tamil Nadu, and Maharashtra regions of India.",
  str "Modern kabaddi rules were standardized in the 1930s.",
  str "Kabaddi became part of the Asian Games in 1990.",
  str "India has won every Kabaddi World Cup tournament since it started.",
  str "Raiding techniques in kabaddi include toe touch, hand touch, and dubki.",
  str "The dubki is a diving move where raiders slide between defenders.",
  str "Defense techniques include ankle hold, thigh hold, and chain tackle.",
  str "A chain tackle is when multiple defenders coordinate to catch a raider.",
  str "Kabaddi improves cardiovascular fitness, strength, agility, and reflexes.",
  str "The sport builds teamwork, mental alertness, and strategic thinking.",
  str "Kabaddi requires no special equipment, just a proper court and players.",
  str "Each team can have up to five substitute players in addition to seven playing.",
  str "Kabaddi is now played in over 70 countries around the world.",
  str "Major kabaddi playing countries include India, Iran, Pakistan, Bangladesh, and South Korea."]

/-- re.search(r"what.*is.*kabaddi", ql): definition questions. -/
def defQ (ql : Str) : Bool := inOrder ql [str "what", str "is", str "kabaddi"]

/-- Origin-question test of lines 240 and 320 of the source. -/
def originQ (ql : Str) : Bool :=
  containsSub ql (str "where") &&
    anySub ql [str "origin", str "originate", str "come from", str "start"]

/-- Team-size question test of the scorer (line 245). -/
def teamQscore (ql : Str) : Bool :=
  howManyMatch ql || inOrder ql [str "player", str "team"]

/-- Team-size question test of the composer (line 329). -/
def teamQcompose (ql : Str) : Bool :=
  howManyMatch ql || containsSub ql (str "players in a team")

/-- How-to-play test of line 250: re how.*play or a literal phrase. -/
def howPlay1Q (ql : Str) : Bool :=
  inOrder ql [str "how", str "play"] || containsSub ql (str "how is it played")

/-- Court-size question test (lines 255 and 381). -/
def courtQ (ql : Str) : Bool :=
  containsSub ql (str "court") &&
    (containsSub ql (str "size") || containsSub ql (str "measure") ||
      containsSub ql (str "dimension"))

/-- Famous-players question test (lines 260 and 390). -/
def famousQ (ql : Str) : Bool :=
  anySub ql [str "famous", str "best", str "top"] && containsSub ql (str "player")

/-- Raider-ranking question test (line 265). -/
def raiderQ (ql : Str) : Bool :=
  containsSub ql (str "raider") && anySub ql [str "best", str "famous", str "top"]

/-- PKL question test (line 275). -/
def pklQ (ql : Str) : Bool :=
  containsSub ql (str "pkl") || containsSub ql (str "pro kabaddi league")

/-- Rules question test (lines 280 and 335). -/
def ruleQ (ql : Str) : Bool := anySub ql [str "rule", str "rules"]

/-- Second how-to-play test (lines 289 and 353). -/
def howPlayQ (ql : Str) : Bool :=
  containsSub ql (str "how") &&
    (containsSub ql (str "play") || containsSub ql (str "played"))

/-- Scoring question test of the scorer (line 294). -/
def scoringQscore (ql : Str) : Bool :=
  anySub ql [str "point", str "score", str "scoring"]

/-- Scoring question test of the composer (line 365). -/
def scoringQcompose (ql : Str) : Bool :=
  anySub ql [str "point", str "score", str "scoring", str "all out",
    str "super raid", str "super tackle"]

/-- Gameplay-rule sentence keywords of scorer line 282. -/
def gameplayKw (sl : Str) : Bool :=
  anySub sl [str "raider", str "defender", str "chant", str "breath", str "tag",
    str "tackle", str "enters", str "attempts", str "returns", str "declared out"]

/-- Scoring-rule sentence keywords of scorer line 285. -/
def scoringKw (sl : Str) : Bool :=
  anySub sl [str "point", str "score", str "all out", str "super raid",
    str "super tackle", str "bonus"]

/-- Per-sentence score of find_relevant_context: base lexical overlap plus
the additive boost table, in source order (lines 227-296).  qW is the token
list of the question, ql the lower-cased question, sent the raw sentence. -/
def scoreSentence (qW : List Str) (ql : Str) (sent : Str) : Nat :=
  let sl := lowerStr sent
  let sT := tokenize sent
  2 * interCard qW sT
  + (if defQ ql &&
        (containsSub sl (str "is a") || containsSub sl (str "is the")) &&
        (containsSub sl (str "contact") || containsSub sl (str "team sport"))
     then 15 else 0)
  + (if originQ ql &&
        anySub sl [str "originated", str "origin", str "punjab", str "tamil",
          str "maharashtra", str "ancient india", str "4000 years"]
     then 20 else 0)
  + (if teamQscore ql &&
        (containsSub sl (str "seven players") || containsSub sl (str "teams of seven"))
     then 20 else 0)
  + (if howPlay1Q ql &&
        anySub sl [str "raider enters", str "attempts to tag", str "chant kabaddi",
          str "hold their breath"]
     then 15 else 0)
  + (if courtQ ql && digitsMeters sl then 18 else 0)
  + (if famousQ ql &&
        anySub sl [str "pardeep narwal", str "anup kumar", str "pawan sehrawat",
          str "rahul chaudhari", str "fazel atrachali"]
     then 15 else 0)
  + (if raiderQ ql &&
        (containsSub sl (str "raider") &&
          anySub sl [str "pardeep", str "pawan", str "naveen", str "rahul"])
     then 18 else 0)
  + (if containsSub ql (str "defender") &&
        (containsSub sl (str "defender") || containsSub sl (str "defensive"))
     then 15 else 0)
  + (if pklQ ql && (containsSub sl (str "pkl") || containsSub sl (str "pro kabaddi league"))
     then 12 else 0)
  + (if ruleQ ql && gameplayKw sl then 30 else 0)
  + (if ruleQ ql && scoringKw sl then 25 else 0)
  + (if howPlayQ ql &&
        anySub sl [str "raider enters", str "attempts to tag", str "chant kabaddi",
          str "hold their breath", str "defenders try", str "teams of seven"]
     then 30 else 0)
  + (if scoringQscore ql &&
        anySub sl [str "point", str "score", str "all out", str "super raid",
          str "super tackle", str "raiders score", str "defenders score"]
     then 25 else 0)

/-- The list sentence_scores built by find_relevant_context, in corpus
iteration order: blank sentences are skipped, sentences scoring 0 are
discarded, and each kept entry is (score, sentence.strip()). -/
def sentence_scores (qW : List Str) (oq : Str) : List (Nat × Str) :=
  KABADDI_CORPUS.flatMap (fun text =>
    (splitOnPunct text).filterMap (fun sent =>
      if (stripChars sent).isEmpty then none
      else
        let sc := scoreSentence qW (lowerStr oq) sent
        if 0 < sc then some (sc, stripChars sent) else none))

/-- Stable descending insertion: x goes in front of the first element whose
score is not larger, so an element inserted later (hence occurring later in
the original list) is placed after equal-score elements, exactly the tie
behaviour of Python list.sort(reverse=True, key=score), which is stable. -/
def insertDesc (x : Nat × Str) : List (Nat × Str) → List (Nat × Str)
  | [] => [x]
  | y :: ys => if y.1 ≤ x.1 then x :: y :: ys else y :: insertDesc x ys

/-- Stable sort by descending score. -/
def sortDesc : List (Nat × Str) → List (Nat × Str)
  | [] => []
  | x :: xs => insertDesc x (sortDesc xs)

/-- find_relevant_context(question_tokens, original_question): sort the
scored sentences by descending score (stable), keep the first 5, drop the
scores. -/
def find_relevant_context (qW : List Str) (oq : Str) : List Str :=
  ((sortDesc (sentence_scores qW oq)).take 5).map Prod.snd

/-- Failure mode of a Python operation that can raise, in the embedding: an index
access out of range or random.choice on an empty sequence. -/
inductive Err where
  | indexErr : Err
  | choiceErr : Err
deriving DecidableEq, Repr

/-- response.endswith(".") normalization of the default branch of
generate_response (source lines 399-401): append "." when missing. -/
def normDot (s : Str) : Str :=
  if endsWithL s (str ".") then s else s ++ str "."

/-- Branch of generate_response for "what is kabaddi" (line 314). -/
def grDefinition (cs : List Str) (ql : Str) : Option Str :=
  if defQ ql then
    (cs.find? (fun s => containsSub (lowerStr s) (str "is a contact team sport"))).map
      stripChars
  else none

/-- Branch of generate_response for origin questions (line 320). -/
def grOrigin (cs : List Str) (ql : Str) : Option Str :=
  if originQ ql then
    let os := (cs.filter (fun s =>
      anySub (lowerStr s) [str "originated", str "origin", str "ancient",
        str "punjab", str "tamil", str "maharashtra", str "4000 years"])).map stripChars
    if os.isEmpty then none else some (joinSp (os.take 2))
  else none

/-- Branch of generate_response for team-size questions (line 329). -/
def grTeam (cs : List Str) (ql : Str) : Option Str :=
  if teamQcompose ql then
    (cs.find? (fun s => containsSub (lowerStr s) (str "seven players") ||
      containsSub (lowerStr s) (str "teams of seven"))).map stripChars
  else none

/-- Sentence filter of the rules branch (lines 340-346): gameplay-rule
phrases, or else scoring-rule phrases. -/
def grRuleSent (s : Str) : Bool :=
  anySub (lowerStr s) [str "raider enters", str "attempts to tag", str "chant kabaddi",
    str "hold their breath", str "defenders try", str "tackle", str "catching",
    str "declared out", str "teams of seven", str "stops chanting",
    str "takes a breath", str "returns successfully"] ||
  anySub (lowerStr s) [str "raiders score", str "defenders score", str "all out",
    str "super raid", str "super tackle", str "bonus points"]

/-- Branch of generate_response for rules questions (line 335). -/
def grRules (cs : List Str) (ql : Str) : Option Str :=
  if ruleQ ql then
    let rs := ((cs.take 8).filter grRuleSent).map stripChars
    if rs.isEmpty then none else some (joinSp (rs.take 5))
  else none

/-- Branch of generate_response for how-to-play questions (line 353). -/
def grHowPlay (cs : List Str) (ql : Str) : Option Str :=
  if howPlayQ ql then
    let ps := ((cs.take 8).filter (fun s =>
      anySub (lowerStr s) [str "raider enters", str "attempts to tag",
        str "chant kabaddi", str "hold their breath", str "defenders try",
        str "teams of seven", str "compete", str "takes turns"])).map stripChars
    if ps.isEmpty then none else some (joinSp (ps.take 4))
  else none

/-- Branch of generate_response for scoring questions (line 365). -/
def grScoring (cs : List Str) (ql : Str) : Option Str :=
  if scoringQcompose ql then
    let ss := ((cs.take 5).filter (fun s =>
      anySub (lowerStr s) [str "point", str "score", str "all out", str "super raid",
        str "super tackle", str "bonus", str "raiders score"])).map stripChars
    if ss.isEmpty then none else some (joinSp (ss.take 3))
  else none

/-- Branch of generate_response for court-size questions (line 381). -/
def grCourt (cs : List Str) (ql : Str) : Option Str :=
  if courtQ ql then
    let os := (cs.filter (fun s => containsSub (lowerStr s) (str "meters") &&
      containsSub (lowerStr s) (str "court"))).map stripChars
    if os.isEmpty then none else some (joinSp (os.take 2))
  else none

/-- Branch of generate_response for famous-players questions (line 390). -/
def grFamous (cs : List Str) (ql : Str) : Option Str :=
  if famousQ ql then
    let ps := ((cs.take 5).filter (fun s =>
      anySub (lowerStr s) [str "pardeep", str "anup", str "pawan", str "rahul",
        str "fazel", str "naveen", str "sandeep", str "manjeet"])).map stripChars
    if ps.isEmpty then none else some (joinSp (ps.take 3))
  else none

/-- generate_response(context_sentences, original_question), source lines
306-403.  The branches are tried in source order; the handler of line 376
is a no-op (pass) in the source and is omitted.  The error value models the
context_sentences[0] index access of the default branch, which the source
guards by the emptiness check at the top of the function. -/
def generate_response (cs : List Str) (oq : Str) : Except Err Str :=
  if cs.isEmpty then .ok (str "I don\x27t have enough information about that.")
  else
    let ql := lowerStr oq
    match grDefinition cs ql <|> grOrigin cs ql <|> grTeam cs ql <|> grRules cs ql <|>
      grHowPlay cs ql <|> grScoring cs ql <|> grCourt cs ql <|> grFamous cs ql with
    | some r => .ok r
    | none =>
      match cs.head? with
      | some c => .ok (normDot (stripChars c))
      | none => .error .indexErr

/-- Sarcasm trigger categories of detect_sarcasm_trigger.  The second
component returned by the source (the matched pattern text) is discarded by
the only caller (answer, line 492) and is not modelled. -/
inductive SKind where
  | obvious : SKind
  | absurd : SKind
  | repetitive : SKind
  | tooEasy : SKind
deriving DecidableEq, Repr

/-- The obvious_questions trigger patterns (source lines 25-35). -/
def obviousMatch (ql : Str) : Bool :=
  inOrder ql [str "is kabaddi", str "football"] ||
  inOrder ql [str "is kabaddi", str "cricket"] ||
  inOrder ql [str "kabaddi", str "ball"] ||
  inOrder ql [str "kabaddi", str "bat"] ||
  inOrder ql [str "play", str "computer"] ||
  containsSub ql (str "video game") ||
  inOrder ql [str "is it", str "boring"] ||
  inOrder ql [str "stupid", str "sport"] ||
  inOrder ql [str "easy", str "sport"]

/-- The absurd trigger patterns (source lines 37-44). -/
def absurdMatch (ql : Str) : Bool :=
  inOrder ql [str "kabaddi", str "space"] ||
  inOrder ql [str "kabaddi", str "moon"] ||
  inOrder ql [str "aliens", str "kabaddi"] ||
  containsSub ql (str "dinosaur") ||
  containsSub ql (str "time travel") ||
  containsSub ql (str "superhero")

/-- Python list[-n:]: the last n entries. -/
def lastN (n : Nat) (l : List Str) : List Str := l.drop (l.length - n)

/-- question_history[-3:] if len(question_history) >= 3 else question_history
(source line 143; the branches coincide but the source spells both). -/
def recentWindow (hist : List Str) : List Str :=
  if 3 ≤ hist.length then lastN 3 hist else hist

/-- detect_sarcasm_trigger(question), source lines 125-151.  hist is
self.question_history, which at the call site already ends with the
lower-cased current question. -/
def detect_sarcasm_trigger (mode : Bool) (hist : List Str) (q : Str) : Option SKind :=
  if !mode then none
  else
    let ql := lowerStr q
    if obviousMatch ql then some .obvious
    else if absurdMatch ql then some .absurd
    else if 2 ≤ (recentWindow hist).count ql then some .repetitive
    else if 15 < (wsSplit q).length &&
        anySub ql [str "what", str "is", str "kabaddi"] then some .tooEasy
    else none

/-- should_praise_question(question), source lines 187-209. -/
def should_praise_question (q : Str) : Bool :=
  let ql := lowerStr q
  containsSub ql (str "strategy") ||
  containsSub ql (str "technique") ||
  inOrder ql [str "why", str "important"] ||
  inOrder ql [str "how", str "improve"] ||
  containsSub ql (str "difference between") ||
  inOrder ql [str "compare", str "to"] ||
  containsSub ql (str "evolution") ||
  inOrder ql [str "history", str "development"] ||
  containsSub ql (str "psychological") ||
  inOrder ql [str "training", str "method"]

/-- Fabricated wrong fact keyed by question keywords (source lines 158-168). -/
def wrongFact (ql : Str) : Str :=
  if containsSub ql (str "ball") then
    str "they use a flaming ball made of dragon scales"
  else if containsSub ql (str "football") || containsSub ql (str "cricket") then
    str "it\x27s exactly like that"
  else if containsSub ql (str "space") || containsSub ql (str "moon") then
    str "kabaddi is the official sport of Mars"
  else if containsSub ql (str "easy") then
    str "it\x27s basically just walking around"
  else if containsSub ql (str "boring") then
    str "you\x27re totally right, watching paint dry is more exciting"
  else str "that\x27s exactly right"

/-- The obvious templates (source lines 48-54) as functions of the wrong
fact and the correct fact, mirroring str.format. -/
def obviousTemplates : List (Str → Str → Str) := [
  fun w c => str "Oh sure, " ++ w ++ str ". And I\x27m the queen of England! Actually, " ++ c,
  fun w c => str "Absolutely! " ++ w ++ str ". Just kidding - " ++ c,
  fun _w c => str "Wow, great question! Next you\x27ll ask if water is wet. But seriously, " ++ c,
  fun _w c => str "Let me check my crystal ball... Nope! " ++ c,
  fun _w c => str "Oh definitely, and pigs fly too! Real talk: " ++ c]

/-- The absurd templates (source lines 55-60). -/
def absurdTemplates : List (Str → Str) := [
  fun c => str "Yes, and unicorns referee the matches! But in reality, " ++ c,
  fun c => str "Sure, in an alternate universe maybe! Here on Earth, " ++ c,
  fun c => str "I love your imagination! But let\x27s get real: " ++ c,
  fun c => str "That\x27s... creative! Though actually, " ++ c]

/-- The too_easy templates (source lines 61-65). -/
def tooEasyTemplates : List (Str → Str) := [
  fun c => str "Did you even try searching? " ++ c,
  fun c => str "Come on, that\x27s Kabaddi 101! " ++ c,
  fun c => str "Really? That\x27s literally the first thing anyone learns! " ++ c]

/-- The praise prefixes (source lines 66-71). -/
def praiseTemplates : List Str := [
  str "Now THAT\x27S a great question! ",
  str "Ooh, I like this one! ",
  str "Finally, a real question! ",
  str "Now we\x27re talking! "]

/-- random.choice, with the random draw supplied as an index seed; choice
from an empty sequence is the Python IndexError, the error branch here. -/
def randChoice (l : List α) (r : Nat) : Except Err α :=
  match l with
  | [] => .error .choiceErr
  | a :: as => .ok ((a :: as).get ⟨r % (a :: as).length, Nat.mod_lt _ (Nat.succ_pos _)⟩)

/-- generate_sarcastic_response(sarcasm_type, correct_answer, question),
source lines 153-185. -/
def generate_sarcastic_response (k : SKind) (correct : Str) (q : Str) (rnd : Nat) :
    Except Err Str :=
  let ql := lowerStr q
  let w := wrongFact ql
  match k with
  | .obvious => (randChoice obviousTemplates rnd).map (fun t => t w correct)
  | .absurd => (randChoice absurdTemplates rnd).map (fun t => t correct)
  | .tooEasy => (randChoice tooEasyTemplates rnd).map (fun t => t correct)
  | .repetitive => .ok (str "Seriously? I just answered this! " ++ correct)

/-- Mutable state of a TrueLLM instance that the dialogue policy touches:
the sarcasm flag and the bounded question history. -/
structure State where
  mode : Bool
  hist : List Str
deriving DecidableEq, Repr

/-- The exact-match sarcasm toggle commands (source line 416). -/
def toggleCmds : List Str :=
  [str "toggle sarcasm", str "sarcasm on", str "sarcasm off",
   str "be sarcastic", str "stop sarcasm"]

/-- question_lower in ["toggle sarcasm", ...]. -/
def isToggleCmd (ql : Str) : Bool := decide (ql ∈ toggleCmds)

/-- re.match(r"^(hi|hello|hey|hii)", ql): a greeting prefix. -/
def isGreeting (ql : Str) : Bool :=
  isPre (str "hi") ql || isPre (str "hello") ql || isPre (str "hey") ql ||
    isPre (str "hii") ql

/-- re.match(r"^(can|could|may) (i|we)", ql). -/
def isPermission (ql : Str) : Bool :=
  isPre (str "can i") ql || isPre (str "can we") ql ||
  isPre (str "could i") ql || isPre (str "could we") ql ||
  isPre (str "may i") ql || isPre (str "may we") ql

/-- re.match(r"^is", ql). -/
def startsIs (ql : Str) : Bool := isPre (str "is") ql

/-- re.search(r"\d+", q): some digit occurs. -/
def hasDigitB (q : Str) : Bool := q.any Char.isDigit

/-- Guard under which the numeric-verification branch of answer returns a
reply: the question starts with "is", contains a digit (line 438) and
re.findall found at least two numbers (line 440).  When the first two
conditions hold but fewer than two numbers exist, the source falls through
to the rest of the pipeline. -/
def numericGuard (q ql : Str) : Bool :=
  startsIs ql && hasDigitB q && decide (2 ≤ (digitRuns q).length)

/-- Which of the three numeric-verification cases fires (lines 442-450):
the comparisons are string equalities on the first two digit substrings,
order-insensitive against the pairs (13,10) and (12,8). -/
inductive Verdict where
  | men : Verdict
  | women : Verdict
  | wrong : Verdict
deriving DecidableEq, Repr

/-- The if/elif/else chain over (n1, n2) of source lines 442-450. -/
def courtBranch (n1 n2 : Str) : Verdict :=
  if (n1 == str "13" && n2 == str "10") || (n1 == str "10" && n2 == str "13") then .men
  else if (n1 == str "12" && n2 == str "8") || (n1 == str "8" && n2 == str "12") then .women
  else .wrong

/-- The reply of the numeric-verification branch (source lines 442-453). -/
def courtReply (mode : Bool) (n1 n2 : Str) : Str :=
  match courtBranch n1 n2 with
  | .men =>
    if mode then
      str "Wow, someone actually knows their measurements! Yes, that\x27s correct! The kabaddi court is 13 meters by 10 meters for men\x27s matches. Gold star for you! ⭐"
    else
      str "Yes, that\x27s correct! The kabaddi court is 13 meters by 10 meters for men\x27s matches."
  | .women =>
    if mode then
      str "Look at you, getting it right! Yes, the women\x27s kabaddi court is 12 meters by 8 meters. Impressive! 👏"
    else
      str "Yes, that\x27s correct! The women\x27s kabaddi court is 12 meters by 8 meters."
  | .wrong =>
    if mode then
      str "Nice try, but nope! Did you just make up random numbers? The kabaddi court measures 13m x 10m for men and 12m x 8m for women. Not " ++
        n1 ++ str "m x " ++ n2 ++ str "m!"
    else
      str "No, that\x27s not correct. The kabaddi court measures 13 meters by 10 meters for men and 12 meters by 8 meters for women."

/-- The fixed domain keyword list of source lines 462-463. -/
def kabaddiWords : List Str :=
  [str "kabaddi", str "player", str "raider", str "defender", str "court",
   str "raid", str "pkl", str "tournament", str "game", str "sport",
   str "team", str "match", str "originated", str "origin"]

/-- is_kabaddi = any(word in question_lower for word in kabaddi_words). -/
def isKabaddiQ (ql : Str) : Bool := anySub ql kabaddiWords

/-- Known-gap topics of source line 473. -/
def isKnownGap (ql : Str) : Bool :=
  anySub ql [str "gold medal", str "olympics", str "medal", str "championship winner"]

/-- Toggle confirmation message (source line 418). -/
def toggleReply (newMode : Bool) : Str :=
  str "🎭 Sarcasm mode is now " ++ (if newMode then str "ON" else str "OFF") ++
    str "! " ++ (if newMode then str "Prepare for sass!"
                 else str "Back to boring serious mode.")

/-- Greeting reply (source lines 421-424). -/
def greetReply (mode : Bool) : Str :=
  if mode then str "Oh great, another human. What kabaddi wisdom do you seek? 🙄"
  else str "Hello! I\x27ve learned about kabaddi from text. Ask me anything!"

/-- Permission-question reply (source lines 432-435). -/
def permReply (mode : Bool) : Str :=
  if mode then
    str "Can you play? I mean, do you have two legs and lungs? Then probably yes! Kabaddi requires teamwork, fitness, and strategy - but hey, you asked!"
  else
    str "Yes, absolutely! Kabaddi is a sport anyone can play. It requires teamwork, fitness, and strategic thinking."

/-- Empty-token reprompt (source line 459). -/
def emptyReply : Str := str "Could you please ask a question?"

/-- Off-topic redirect (source lines 467-470). -/
def offTopicReply (mode : Bool) : Str :=
  if mode then
    str "Um, I\x27m a KABADDI expert, not a general knowledge encyclopedia! Ask me about kabaddi, please! 🙄"
  else
    str "I\x27ve learned about kabaddi. Please ask me kabaddi-related questions!"

/-- Known-gap apology (source lines 473-476). -/
def gapReply (mode : Bool) : Str :=
  if mode then
    str "Oh sure, let me just pull that out of my database... oh wait, I DON\x27T HAVE IT! I can tell you about kabaddi basics, players, rules, and PKL though. Try those?"
  else
    str "I don\x27t have information about that specific topic in my training data. I can tell you about kabaddi basics, players, rules, and the Pro Kabaddi League."

/-- Empty-retrieval reply (source lines 481-484). -/
def stumpedReply (mode : Bool) : Str :=
  if mode then
    str "Wow, you stumped me! I haven\x27t learned about that yet. Maybe try asking something I actually know? Like basics, players, rules, or PKL?"
  else
    str "I haven\x27t learned enough about that specific topic yet. Try asking about kabaddi basics, players, rules, or Pro Kabaddi League."

/-- History update of source lines 427-429: append the lower-cased question,
then pop the oldest entry when the length exceeds 10. -/
def push10 (h : List Str) (x : Str) : List Str :=
  let h2 := h ++ [x]
  if 10 < h2.length then h2.drop 1 else h2

/-- The reply computed after the history update, source lines 432-502; hist1
is the already-updated history (used by repetition detection), q the
stripped question, ql its lower-casing.  No state is mutated in this region
of the source. -/
def routeReply (mode : Bool) (hist1 : List Str) (q ql : Str) (rnd : Nat) :
    Except Err Str :=
  if isPermission ql then .ok (permReply mode)
  else if numericGuard q ql then
    match digitRuns q with
    | n1 :: n2 :: _ => .ok (courtReply mode n1 n2)
    | _ => .error .indexErr
  else
    let qTokens := tokenize q
    if qTokens.isEmpty then .ok emptyReply
    else if !isKabaddiQ ql then .ok (offTopicReply mode)
    else if isKnownGap ql then .ok (gapReply mode)
    else
      let rel := find_relevant_context qTokens q
      if rel.isEmpty then .ok (stumpedReply mode)
      else
        match generate_response rel q with
        | .error e => .error e
        | .ok base =>
          if mode then
            match detect_sarcasm_trigger mode hist1 q with
            | some k => generate_sarcastic_response k base q rnd
            | none =>
              if should_praise_question q then
                (randChoice praiseTemplates rnd).map (fun p => p ++ base)
              else .ok base
          else .ok base

/-- answer(question), source lines 410-502.  Returns the reply together with
the successor state; rnd supplies the random.choice draws of the sarcasm and
praise overlays. -/
def answer (st : State) (q0 : Str) (rnd : Nat) : Except Err (Str × State) :=
  let q := stripChars q0
  let ql := lowerStr q
  if isToggleCmd ql then .ok (toggleReply (!st.mode), ⟨!st.mode, st.hist⟩)
  else if isGreeting ql then .ok (greetReply st.mode, st)
  else
    let hist1 := push10 st.hist ql
    let st1 : State := ⟨st.mode, hist1⟩
    (routeReply st.mode hist1 q ql rnd).map (fun r => (r, st1))

/-- The display string of an answer call, when no embedded error occurred. -/
def replyOf (e : Except Err (Str × State)) : Option Str := e.toOption.map Prod.fst

/-- The successor state of an answer call, defaulting to d on the (provably
unreachable) error branch. -/
def stateOf (e : Except Err (Str × State)) (d : State) : State :=
  match e.toOption with
  | some p => p.2
  | none => d

/-- A lower-cased question with a greeting prefix starts with the letter h. -/
theorem isGreeting_head {l : Str} (h : isGreeting l = true) : l.head? = some 'h' := by
  cases l with
  | nil => simp [isGreeting, isPre, show str "hi" = ['h', 'i'] from rfl,
      show str "hello" = ['h', 'e', 'l', 'l', 'o'] from rfl,
      show str "hey" = ['h', 'e', 'y'] from rfl,
      show str "hii" = ['h', 'i', 'i'] from rfl] at h
  | cons c cs =>
    simp only [isGreeting, show str "hi" = ['h', 'i'] from rfl,
      show str "hello" = ['h', 'e', 'l', 'l', 'o'] from rfl,
      show str "hey" = ['h', 'e', 'y'] from rfl,
      show str "hii" = ['h', 'i', 'i'] from rfl, isPre, Bool.or_eq_true,
      Bool.and_eq_true, beq_iff_eq] at h
    have hc : c = 'h' := by tauto
    simp [hc]

/-- Every toggle command starts with t, s or b, never with h. -/
theorem toggle_head {l : Str} (h : l ∈ toggleCmds) : l.head? ≠ some 'h' := by
  fin_cases h <;> decide

/-- A greeting is never one of the toggle commands. -/
theorem isToggleCmd_of_greeting {l : Str} (h : isGreeting l = true) :
    isToggleCmd l = false := by
  have hh := isGreeting_head h
  by_contra hne
  have ht : isToggleCmd l = true := by
    cases hx : isToggleCmd l
    · exact absurd hx hne
    · rfl
  have hmem : l ∈ toggleCmds := by
    have := of_decide_eq_true ht
    exact this
  exact toggle_head hmem (by rw [hh])

/-- Claim C8: for every question whose lower-cased (stripped) text begins
with a greeting prefix, answer returns the fixed greeting (the sarcastic
variant exactly when sarcasm mode is on) and returns the state unchanged,
so the question history keeps its length and contents. -/
theorem c8_greeting_pure (st : State) (q0 : Str) (rnd : Nat)
    (h : isGreeting (lowerStr (stripChars q0)) = true) :
    answer st q0 rnd = .ok (greetReply st.mode, st) ∧
    greetReply true = str "Oh great, another human. What kabaddi wisdom do you seek? 🙄" ∧
    greetReply false = str "Hello! I\x27ve learned about kabaddi from text. Ask me anything!" := by
  refine ⟨?_, rfl, rfl⟩
  simp only [answer, isToggleCmd_of_greeting h, h]
  simp

/-- Witness for C8 at the concrete greeting "hello" in plain mode. -/
theorem c8_greeting_pure_witness :
    isGreeting (lowerStr (stripChars (str "hello"))) = true ∧
    answer ⟨false, [str "who is pardeep narwal"]⟩ (str "hello") 7 =
      .ok (greetReply false, ⟨false, [str "who is pardeep narwal"]⟩) := by
  exact ⟨by decide, (c8_greeting_pure ⟨false, [str "who is pardeep narwal"]⟩
    (str "hello") 7 (by decide)).1⟩

/-- Claim C5: numeric verification is order-insensitive.  The if/elif/else
chain over the first two numeric tokens selects the same branch under swap
of the two tokens, and concretely the questions "is the court 10 by 13" and
"is the court 13 by 10" produce the same reply from answer in every state
(hence for either sarcasm-mode setting). -/
theorem c5_numeric_verification_symmetric :
    (∀ n1 n2 : Str, courtBranch n1 n2 = courtBranch n2 n1) ∧
    (∀ (st : State) (rnd : Nat),
      replyOf (answer st (str "is the court 10 by 13") rnd) =
        replyOf (answer st (str "is the court 13 by 10") rnd)) := by
  constructor
  · intro n1 n2
    cases h1 : n1 == str "13" <;> cases h2 : n2 == str "10" <;>
      cases h3 : n1 == str "10" <;> cases h4 : n2 == str "13" <;>
      cases h5 : n1 == str "12" <;> cases h6 : n2 == str "8" <;>
      cases h7 : n1 == str "8" <;> cases h8 : n2 == str "12" <;>
      simp [courtBranch, h1, h2, h3, h4, h5, h6, h7, h8]
  · intro st rnd
    rfl

/-- Claim C10: the first two digit substrings are compared as literal
strings, not numerically.  "013" differs from "13" as a string although both
denote thirteen, so "is the court 013 by 10" takes the correction branch
and answer returns the "not correct" reply, while the same numbers written
without the leading zero take the confirmation branch. -/
theorem c10_literal_string_comparison :
    courtBranch (str "013") (str "10") = Verdict.wrong ∧
    courtBranch (str "13") (str "10") = Verdict.men ∧
    (∀ (hist : List Str) (rnd : Nat),
      replyOf (answer ⟨false, hist⟩ (str "is the court 013 by 10") rnd) =
        some (str "No, that\x27s not correct. The kabaddi court measures 13 meters by 10 meters for men and 12 meters by 8 meters for women.")) := by
  exact ⟨rfl, rfl, fun hist rnd => rfl⟩

/-- Claim C6: when the lower-cased question is not a toggle command, has no
greeting prefix, matches neither the permission prefix nor the
numeric-verification guard, tokenizes to a non-empty sequence and contains
none of the fixed domain keywords, answer returns the off-topic redirect
for the current mode; the reply is the fixed redirect string, so the
retrieval pipeline is not consulted, and only the history update happens. -/
theorem c6_offtopic_redirect (st : State) (q0 : Str) (rnd : Nat)
    (h1 : isToggleCmd (lowerStr (stripChars q0)) = false)
    (h2 : isGreeting (lowerStr (stripChars q0)) = false)
    (h3 : isPermission (lowerStr (stripChars q0)) = false)
    (h4 : numericGuard (stripChars q0) (lowerStr (stripChars q0)) = false)
    (h5 : (tokenize (stripChars q0)).isEmpty = false)
    (h6 : isKabaddiQ (lowerStr (stripChars q0)) = false) :
    answer st q0 rnd =
      .ok (offTopicReply st.mode,
        ⟨st.mode, push10 st.hist (lowerStr (stripChars q0))⟩) := by
  simp only [answer, routeReply, h1, h2, h3, h4, h5, h6]
  simp [Except.map]

/-- Witness for C6 at the concrete question "what is the weather today",
checked in both sarcasm modes. -/
theorem c6_offtopic_redirect_witness :
    isKabaddiQ (lowerStr (stripChars (str "what is the weather today"))) = false ∧
    answer ⟨false, []⟩ (str "what is the weather today") 0 =
      .ok (offTopicReply false,
        ⟨false, [str "what is the weather today"]⟩) ∧
    answer ⟨true, []⟩ (str "what is the weather today") 0 =
      .ok (offTopicReply true,
        ⟨true, [str "what is the weather today"]⟩) := by
  refine ⟨by decide, ?_, ?_⟩
  · have := c6_offtopic_redirect ⟨false, []⟩ (str "what is the weather today") 0
      (by decide) (by decide) (by decide) (by decide) (by decide) (by decide)
    simpa [push10] using this
  · have := c6_offtopic_redirect ⟨true, []⟩ (str "what is the weather today") 0
      (by decide) (by decide) (by decide) (by decide) (by decide) (by decide)
    simpa [push10] using this

/-- Appending the missing period always yields a string ending in ".". -/
theorem normDot_ends (s : Str) : endsWithL (normDot s) (str ".") = true := by
  by_cases he : endsWithL s (str ".") = true
  · simp [normDot, he]
  · simp only [normDot, he, if_neg, Bool.not_eq_true] at *
    simp [he, endsWithL, List.reverse_append, show (str ".").reverse = ['.'] from rfl,
      isPre]

/-- Counterexample to claim C1: the definition branch of generate_response
returns the matched sentence verbatim.  The retrieval pipeline delivers
sentences with their terminators stripped (re.split on [.!?]+), so for the
question "what is kabaddi" the composed reply ends in the letter a and no
terminal punctuation is appended; the claimed per-branch normalization does
not exist. -/
theorem c1_counterexample :
    generate_response
        [str "Kabaddi is a contact team sport that originated in ancient India"]
        (str "what is kabaddi") =
      .ok (str "Kabaddi is a contact team sport that originated in ancient India") ∧
    (endsWithL (str "Kabaddi is a contact team sport that originated in ancient India")
        (str ".") ||
     endsWithL (str "Kabaddi is a contact team sport that originated in ancient India")
        (str "!") ||
     endsWithL (str "Kabaddi is a contact team sport that originated in ancient India")
        (str "?")) = false := by
  exact ⟨rfl, by decide⟩

/-- Claim C1 (amended): only the default branch of generate_response
normalizes punctuation.  For every non-empty sentence list and every
question matching none of the intent patterns, the reply is the first
sentence, stripped, with "." appended exactly when it is missing; such a
reply always ends in "." and a sentence already ending in "." is returned
unchanged, so "." is never double-appended there.  The intent branches
return the selected stripped sentences joined by spaces with no punctuation
or capitalization normalization (see the counterexample). -/
theorem c1_default_normalization (c : Str) (rest : List Str) (oq : Str)
    (hd : defQ (lowerStr oq) = false) (ho : originQ (lowerStr oq) = false)
    (ht : teamQcompose (lowerStr oq) = false) (hr : ruleQ (lowerStr oq) = false)
    (hp : howPlayQ (lowerStr oq) = false) (hs : scoringQcompose (lowerStr oq) = false)
    (hc : courtQ (lowerStr oq) = false) (hf : famousQ (lowerStr oq) = false) :
    generate_response (c :: rest) oq = .ok (normDot (stripChars c)) ∧
    endsWithL (normDot (stripChars c)) (str ".") = true ∧
    (endsWithL (stripChars c) (str ".") = true →
      normDot (stripChars c) = stripChars c) := by
  refine ⟨?_, normDot_ends _, fun he => by simp [normDot, he]⟩
  simp only [generate_response, grDefinition, grOrigin, grTeam, grRules, grHowPlay,
    grScoring, grCourt, grFamous, hd, ho, ht, hr, hp, hs, hc, hf]
  simp

/-- Witness for the amended C1 at a sentence without a final period and a
question that matches no intent pattern. -/
theorem c1_default_normalization_witness :
    defQ (lowerStr (str "kabaddi")) = false ∧
    generate_response [str "Kabaddi requires no special equipment, just a proper court and players"]
        (str "kabaddi") =
      .ok (normDot (stripChars
        (str "Kabaddi requires no special equipment, just a proper court and players"))) := by
  exact ⟨by decide,
    (c1_default_normalization
      (str "Kabaddi requires no special equipment, just a proper court and players") []
      (str "kabaddi") (by decide) (by decide) (by decide) (by decide) (by decide)
      (by decide) (by decide) (by decide)).1⟩

/-- The eleven boost summands of scoreSentence that do not depend on the
rules-question condition, in source order, used to isolate the two rules
boosts in claim C7. -/
def scoreOtherParts (ql : Str) (sent : Str) : Nat :=
  let sl := lowerStr sent
  (if defQ ql &&
        (containsSub sl (str "is a") || containsSub sl (str "is the")) &&
        (containsSub sl (str "contact") || containsSub sl (str "team sport"))
     then 15 else 0)
  + (if originQ ql &&
        anySub sl [str "originated", str "origin", str "punjab", str "tamil",
          str "maharashtra", str "ancient india", str "4000 years"]
     then 20 else 0)
  + (if teamQscore ql &&
        (containsSub sl (str "seven players") || containsSub sl (str "teams of seven"))
     then 20 else 0)
  + (if howPlay1Q ql &&
        anySub sl [str "raider enters", str "attempts to tag", str "chant kabaddi",
          str "hold their breath"]
     then 15 else 0)
  + (if courtQ ql && digitsMeters sl then 18 else 0)
  + (if famousQ ql &&
        anySub sl [str "pardeep narwal", str "anup kumar", str "pawan sehrawat",
          str "rahul chaudhari", str "fazel atrachali"]
     then 15 else 0)
  + (if raiderQ ql &&
        (containsSub sl (str "raider") &&
          anySub sl [str "pardeep", str "pawan", str "naveen", str "rahul"])
     then 18 else 0)
  + (if containsSub ql (str "defender") &&
        (containsSub sl (str "defender") || containsSub sl (str "defensive"))
     then 15 else 0)
  + (if pklQ ql && (containsSub sl (str "pkl") || containsSub sl (str "pro kabaddi league"))
     then 12 else 0)
  + (if howPlayQ ql &&
        anySub sl [str "raider enters", str "attempts to tag", str "chant kabaddi",
          str "hold their breath", str "defenders try", str "teams of seven"]
     then 30 else 0)
  + (if scoringQscore ql &&
        anySub sl [str "point", str "score", str "all out", str "super raid",
          str "super tackle", str "raiders score", str "defenders score"]
     then 25 else 0)

/-- Claim C7: when the lower-cased question contains "rule" (which also
covers "rules"), the score of every sentence decomposes as the base score
2 x |set(question_tokens) ∩ set(sentence_tokens)| plus the other boosts
plus exactly 30 when the sentence contains a gameplay-rule keyword and
exactly 25 more when it contains a scoring keyword. -/
theorem c7_rules_boosts (qW : List Str) (ql sent : Str)
    (h : containsSub ql (str "rule") = true) :
    scoreSentence qW ql sent =
      2 * interCard qW (tokenize sent) + scoreOtherParts ql sent +
        (if gameplayKw (lowerStr sent) then 30 else 0) +
        (if scoringKw (lowerStr sent) then 25 else 0) := by
  have hr : ruleQ ql = true := by simp [ruleQ, anySub, h]
  simp only [scoreSentence, scoreOtherParts, hr, Bool.true_and]
  ring

/-- Witness for C7 at the question "rules" and a corpus sentence that
carries both a gameplay keyword and a scoring keyword. -/
theorem c7_rules_boosts_witness :
    containsSub (lowerStr (str "rules")) (str "rule") = true ∧
    scoreSentence (tokenize (str "rules")) (lowerStr (str "rules"))
        (str "If a raider tags defenders and returns successfully they score points") =
      2 * interCard (tokenize (str "rules"))
          (tokenize (str "If a raider tags defenders and returns successfully they score points")) +
        scoreOtherParts (lowerStr (str "rules"))
          (str "If a raider tags defenders and returns successfully they score points") +
        (if gameplayKw (lowerStr (str "If a raider tags defenders and returns successfully they score points")) then 30 else 0) +
        (if scoringKw (lowerStr (str "If a raider tags defenders and returns successfully they score points")) then 25 else 0) := by
  exact ⟨by decide, c7_rules_boosts (tokenize (str "rules")) (lowerStr (str "rules"))
    (str "If a raider tags defenders and returns successfully they score points")
    (by decide)⟩

/-- Counterexample to claim C2: with sarcasm mode on and an empty history,
asking "best raiders" twice in a row already triggers the repetitive branch
on the SECOND occurrence, because answer appends the current question to the
history before detect_sarcasm_trigger counts occurrences in the last-3
window, so a single prior occurrence yields a count of 2.  The claim says
the branch must not fire on the 2nd ask. -/
theorem c2_counterexample :
    answer ⟨true, []⟩ (str "best raiders") 0 =
      .ok (str "The best raiders in kabaddi include Pardeep Narwal, Pawan Sehrawat, and Naveen Kumar.",
        ⟨true, [str "best raiders"]⟩) ∧
    answer ⟨true, [str "best raiders"]⟩ (str "best raiders") 0 =
      .ok (str "Seriously? I just answered this! The best raiders in kabaddi include Pardeep Narwal, Pawan Sehrawat, and Naveen Kumar.",
        ⟨true, [str "best raiders", str "best raiders"]⟩) := ⟨rfl, rfl⟩

/-- Claim C2 (amended): with sarcasm mode on, for a question matching no
obvious or absurd pattern, the repetitive branch fires exactly when the
lower-cased question occurs at least twice in the last-3 window of the
history as passed to detect_sarcasm_trigger; since answer has already
appended the current question at that point, one prior consecutive
occurrence suffices, so the branch fires on the 2nd consecutive ask and on
every later one, not first on the 3rd. -/
theorem c2_repetition_window (hist : List Str) (q : Str)
    (hob : obviousMatch (lowerStr q) = false)
    (hab : absurdMatch (lowerStr q) = false) :
    detect_sarcasm_trigger true hist q = some SKind.repetitive ↔
      2 ≤ (recentWindow hist).count (lowerStr q) := by
  simp only [detect_sarcasm_trigger, hob, hab, Bool.not_true, Bool.false_eq_true,
    if_false]
  by_cases hc : 2 ≤ (recentWindow hist).count (lowerStr q)
  · simp [hc]
  · simp only [hc, if_neg, if_false, iff_false]
    split <;> simp [hc]

/-- Witness for the amended C2: a history that ends with two copies of the
question (the state during the second consecutive ask) triggers the branch. -/
theorem c2_repetition_window_witness :
    obviousMatch (lowerStr (str "best raiders")) = false ∧
    absurdMatch (lowerStr (str "best raiders")) = false ∧
    (detect_sarcasm_trigger true [str "best raiders", str "best raiders"]
        (str "best raiders") = some SKind.repetitive ↔
      2 ≤ (recentWindow [str "best raiders", str "best raiders"]).count
            (lowerStr (str "best raiders"))) := by
  exact ⟨by decide, by decide,
    c2_repetition_window [str "best raiders", str "best raiders"]
      (str "best raiders") (by decide) (by decide)⟩

/-- generate_response never reaches its error branch: the index access of
the default branch is guarded by the emptiness check at the top. -/
theorem generate_response_ok (cs : List Str) (oq : Str) :
    ∃ r, generate_response cs oq = .ok r := by
  rcases cs with - | ⟨c, cs'⟩
  · exact ⟨_, rfl⟩
  · simp only [generate_response, List.isEmpty_cons, Bool.false_eq_true, if_false]
    rcases hM : grDefinition (c :: cs') (lowerStr oq) <|> grOrigin (c :: cs') (lowerStr oq) <|>
        grTeam (c :: cs') (lowerStr oq) <|> grRules (c :: cs') (lowerStr oq) <|>
        grHowPlay (c :: cs') (lowerStr oq) <|> grScoring (c :: cs') (lowerStr oq) <|>
        grCourt (c :: cs') (lowerStr oq) <|> grFamous (c :: cs') (lowerStr oq) with - | r
    · exact ⟨_, rfl⟩
    · exact ⟨_, rfl⟩

/-- generate_sarcastic_response never fails: every template list drawn from
is a non-empty literal, so random.choice cannot raise. -/
theorem generate_sarcastic_response_ok (k : SKind) (c q : Str) (rnd : Nat) :
    ∃ r, generate_sarcastic_response k c q rnd = .ok r := by
  cases k
  · exact ⟨_, rfl⟩
  · exact ⟨_, rfl⟩
  · exact ⟨_, rfl⟩
  · exact ⟨_, rfl⟩

/-- The post-history part of the dialogue policy always produces a reply:
the numeric branch is guarded by the two-numbers check, and both retrieval
helpers are total. -/
theorem routeReply_ok (mode : Bool) (hist1 : List Str) (q ql : Str) (rnd : Nat) :
    ∃ r, routeReply mode hist1 q ql rnd = .ok r := by
  simp only [routeReply]
  by_cases h1 : isPermission ql = true
  · rw [if_pos h1]; exact ⟨_, rfl⟩
  · rw [if_neg h1]
    by_cases h2 : numericGuard q ql = true
    · rw [if_pos h2]
      have hlen : 2 ≤ (digitRuns q).length := by
        simp only [numericGuard, Bool.and_eq_true, decide_eq_true_eq] at h2
        exact h2.2
      rcases hl : digitRuns q with - | ⟨n1, - | ⟨n2, t2⟩⟩
      · rw [hl] at hlen; simp at hlen
      · rw [hl] at hlen; simp at hlen
      · exact ⟨_, rfl⟩
    · rw [if_neg h2]
      by_cases h3 : (tokenize q).isEmpty = true
      · rw [if_pos h3]; exact ⟨_, rfl⟩
      · rw [if_neg h3]
        by_cases h4 : (!isKabaddiQ ql) = true
        · rw [if_pos h4]; exact ⟨_, rfl⟩
        · rw [if_neg h4]
          by_cases h5 : isKnownGap ql = true
          · rw [if_pos h5]; exact ⟨_, rfl⟩
          · rw [if_neg h5]
            by_cases h6 : (find_relevant_context (tokenize q) q).isEmpty = true
            · rw [if_pos h6]; exact ⟨_, rfl⟩
            · rw [if_neg h6]
              obtain ⟨base, hb⟩ := generate_response_ok
                (find_relevant_context (tokenize q) q) q
              simp only [hb]
              by_cases h7 : mode = true
              · rw [if_pos h7]
                rcases hd : detect_sarcasm_trigger mode hist1 q with - | k
                · dsimp only
                  by_cases h8 : should_praise_question q = true
                  · rw [if_pos h8]; exact ⟨_, rfl⟩
                  · rw [if_neg h8]; exact ⟨_, rfl⟩
                · exact generate_sarcastic_response_ok k base q rnd
              · rw [if_neg h7]; exact ⟨_, rfl⟩

/-- Claim C3: answer is total.  Every branch of the dialogue policy returns
a display string: for every state, input string and random draw the
embedding returns Except.ok, so the modelled exceptional branches (index
errors, random.choice on an empty sequence) are unreachable. -/
theorem c3_answer_total (st : State) (q0 : Str) (rnd : Nat) :
    ∃ out, answer st q0 rnd = .ok out := by
  simp only [answer]
  by_cases h1 : isToggleCmd (lowerStr (stripChars q0)) = true
  · rw [if_pos h1]; exact ⟨_, rfl⟩
  · rw [if_neg h1]
    by_cases h2 : isGreeting (lowerStr (stripChars q0)) = true
    · rw [if_pos h2]; exact ⟨_, rfl⟩
    · rw [if_neg h2]
      obtain ⟨r, hr⟩ := routeReply_ok st.mode (push10 st.hist (lowerStr (stripChars q0)))
        (stripChars q0) (lowerStr (stripChars q0)) rnd
      rw [hr]
      exact ⟨_, rfl⟩


/-- Only two history outcomes exist for a call to answer: the toggle and
greeting branches leave it untouched, every other branch installs the
push10 update computed before dispatch. -/
theorem answer_hist_char (st : State) (q0 : Str) (rnd : Nat) :
    (stateOf (answer st q0 rnd) st).hist = st.hist ∨
    (stateOf (answer st q0 rnd) st).hist = push10 st.hist (lowerStr (stripChars q0)) := by
  simp only [answer]
  by_cases h1 : isToggleCmd (lowerStr (stripChars q0)) = true
  · rw [if_pos h1]; exact .inl rfl
  · rw [if_neg h1]
    by_cases h2 : isGreeting (lowerStr (stripChars q0)) = true
    · rw [if_pos h2]; exact .inl rfl
    · rw [if_neg h2]
      rcases hr : routeReply st.mode (push10 st.hist (lowerStr (stripChars q0)))
          (stripChars q0) (lowerStr (stripChars q0)) rnd with e | r
      · exact .inl rfl
      · exact .inr rfl

/-- push10 on a history of at most 10 entries: the result stays at most 10,
appending plainly below capacity and dropping the oldest entry at it. -/
theorem push10_cases (h : List Str) (x : Str) (hlen : h.length ≤ 10) :
    (push10 h x).length ≤ 10 ∧
    ((h.length < 10 ∧ push10 h x = h ++ [x]) ∨
     (h.length = 10 ∧ push10 h x = h.drop 1 ++ [x])) := by
  by_cases hc : h.length < 10
  · have he : push10 h x = h ++ [x] := by
      simp only [push10, List.length_append, List.length_singleton]
      rw [if_neg (by omega)]
    refine ⟨?_, .inl ⟨hc, he⟩⟩
    rw [he]; simp; omega
  · have h10 : h.length = 10 := by omega
    rcases h with - | ⟨a, t⟩
    · simp at h10
    · have he : push10 (a :: t) x = (a :: t).drop 1 ++ [x] := by
        simp only [push10, List.length_append, List.length_cons, List.length_singleton]
        rw [if_pos (by simp at h10; omega)]
        rfl
      refine ⟨?_, .inr ⟨h10, he⟩⟩
      rw [he]
      simp at h10 ⊢
      omega

/-- Entries of a push10 update come from the old history or are the new one. -/
theorem push10_mem (h : List Str) (x : Str) (hlen : h.length ≤ 10) :
    ∀ e ∈ push10 h x, e ∈ h ∨ e = x := by
  rcases (push10_cases h x hlen).2 with ⟨-, he⟩ | ⟨-, he⟩ <;> rw [he] <;>
    intro e hme <;> rcases List.mem_append.1 hme with hm | hm
  · exact .inl hm
  · exact .inr (by simpa using hm)
  · exact .inl (List.drop_subset 1 h hm)
  · exact .inr (by simpa using hm)

/-- Claim C9: the question history is a bounded FIFO.  Starting from a
history of at most 10 entries each of which is the lower-casing of some
string, after any answer call the history still has at most 10 entries of
that shape, and it is either unchanged, or extended at the back with the
lower-cased stripped question when below capacity, or rotated (oldest entry
dropped, new entry appended) when at capacity 10. -/
theorem c9_history_fifo (st : State) (q0 : Str) (rnd : Nat)
    (hlen : st.hist.length ≤ 10)
    (hlow : ∀ e ∈ st.hist, ∃ s, e = lowerStr s) :
    (stateOf (answer st q0 rnd) st).hist.length ≤ 10 ∧
    (∀ e ∈ (stateOf (answer st q0 rnd) st).hist, ∃ s, e = lowerStr s) ∧
    ((stateOf (answer st q0 rnd) st).hist = st.hist ∨
     (st.hist.length < 10 ∧
       (stateOf (answer st q0 rnd) st).hist = st.hist ++ [lowerStr (stripChars q0)]) ∨
     (st.hist.length = 10 ∧
       (stateOf (answer st q0 rnd) st).hist =
         st.hist.drop 1 ++ [lowerStr (stripChars q0)])) := by
  rcases answer_hist_char st q0 rnd with he | he
  · rw [he]
    exact ⟨hlen, hlow, .inl rfl⟩
  · rw [he]
    obtain ⟨h1, h2⟩ := push10_cases st.hist (lowerStr (stripChars q0)) hlen
    refine ⟨h1, ?_, ?_⟩
    · intro e hme
      rcases push10_mem st.hist (lowerStr (stripChars q0)) hlen e hme with hm | hm
      · exact hlow e hm
      · exact ⟨stripChars q0, hm⟩
    · rcases h2 with ⟨ha, hb⟩ | ⟨ha, hb⟩
      · exact .inr (.inl ⟨ha, hb⟩)
      · exact .inr (.inr ⟨ha, hb⟩)

/-- Witness for C9 starting from a one-entry lower-cased history. -/
theorem c9_history_fifo_witness :
    ([str "who invented kabaddi"] : List Str).length ≤ 10 ∧
    (stateOf (answer ⟨true, [str "who invented kabaddi"]⟩ (str "hello") 3)
        ⟨true, [str "who invented kabaddi"]⟩).hist.length ≤ 10 := by
  refine ⟨by decide, ?_⟩
  exact (c9_history_fifo ⟨true, [str "who invented kabaddi"]⟩ (str "hello") 3
    (by decide)
    (by intro e hme; simp at hme
        exact ⟨str "who invented KABADDI", by rw [hme]; decide⟩)).1

/-- Membership after a stable descending insertion. -/
theorem mem_insertDesc (x z : Nat × Str) :
    ∀ l : List (Nat × Str), z ∈ insertDesc x l → z = x ∨ z ∈ l
  | [] => by simp [insertDesc]
  | y :: ys => by
    simp only [insertDesc]
    split
    · intro h
      simpa [List.mem_cons] using h
    · intro h
      rcases List.mem_cons.1 h with hz | hz
      · exact .inr (by simp [hz])
      · rcases mem_insertDesc x z ys hz with h' | h'
        · exact .inl h'
        · exact .inr (List.mem_cons_of_mem _ h')

/-- Stable descending insertion preserves the non-increasing order. -/
theorem sorted_insertDesc (x : Nat × Str) :
    ∀ {l : List (Nat × Str)}, List.Pairwise (fun a b => b.1 ≤ a.1) l →
      List.Pairwise (fun a b => b.1 ≤ a.1) (insertDesc x l) := by
  intro l
  induction l with
  | nil => intro; simp [insertDesc]
  | cons y ys ih =>
    intro h
    rcases List.pairwise_cons.1 h with ⟨hy, hys⟩
    simp only [insertDesc]
    split
    · rename_i hc
      refine List.pairwise_cons.2 ⟨?_, h⟩
      intro z hz
      rcases List.mem_cons.1 hz with rfl | hz'
      · exact hc
      · exact le_trans (hy z hz') hc
    · rename_i hc
      refine List.pairwise_cons.2 ⟨?_, ih hys⟩
      intro z hz
      rcases mem_insertDesc x z ys hz with rfl | hz'
      · omega
      · exact hy z hz'

/-- The sorted list only contains elements of the input. -/
theorem mem_sortDesc (z : Nat × Str) :
    ∀ l : List (Nat × Str), z ∈ sortDesc l → z ∈ l
  | [] => by simp [sortDesc]
  | y :: ys => by
    intro h
    rcases mem_insertDesc y z (sortDesc ys) h with h' | h'
    · simp [h']
    · exact List.mem_cons_of_mem _ (mem_sortDesc z ys h')

/-- The sorted list is non-increasing by score. -/
theorem sorted_sortDesc :
    ∀ l : List (Nat × Str), List.Pairwise (fun a b => b.1 ≤ a.1) (sortDesc l)
  | [] => by simp [sortDesc]
  | y :: ys => sorted_insertDesc y (sorted_sortDesc ys)

/-- Stability of the insertion, phrased on score classes: the elements the
insertion walks past all have a strictly larger score than x, so restricting
to any fixed score value c leaves the new element in front exactly when it
carries score c, with the old c-elements in their original order. -/
theorem filter_insertDesc (c : Nat) (x : Nat × Str) :
    ∀ l : List (Nat × Str),
      (insertDesc x l).filter (fun p => p.1 == c) =
        if x.1 = c then x :: l.filter (fun p => p.1 == c)
        else l.filter (fun p => p.1 == c)
  | [] => by by_cases hx : x.1 = c <;> simp [insertDesc, hx, List.filter_cons]
  | y :: ys => by
    simp only [insertDesc]
    split
    · by_cases hx : x.1 = c <;> simp [List.filter_cons, hx]
    · rename_i hc
      rw [List.filter_cons, filter_insertDesc c x ys]
      by_cases hx : x.1 = c
      · have hy : ¬(y.1 = c) := by omega
        simp [hx, hy, List.filter_cons]
      · by_cases hy : y.1 = c <;> simp [hx, hy, List.filter_cons]

/-- Stability of the sort: on each score class the sort is the identity. -/
theorem filter_sortDesc (c : Nat) :
    ∀ l : List (Nat × Str),
      (sortDesc l).filter (fun p => p.1 == c) = l.filter (fun p => p.1 == c)
  | [] => rfl
  | y :: ys => by
    simp only [sortDesc]
    rw [filter_insertDesc c y (sortDesc ys), filter_sortDesc c ys, List.filter_cons]
    by_cases hy : y.1 = c <;> simp [hy]

/-- Every entry of sentence_scores carries a strictly positive score: the
construction drops score-0 sentences. -/
theorem sentence_scores_pos (qW : List Str) (oq : Str) :
    ∀ p ∈ sentence_scores qW oq, 0 < p.1 := by
  intro p hp
  simp only [sentence_scores, List.mem_flatMap, List.mem_filterMap] at hp
  obtain ⟨text, -, sent, -, hf⟩ := hp
  split_ifs at hf with h1 h2
  · simp only [Option.some.injEq] at hf
    rw [← hf]
    exact h2

/-- Claim C4: for every question, find_relevant_context returns the second
components of a scored list ps with at most 5 entries, every entry a
strictly positive scored member of sentence_scores, ordered non-increasing
by score, and stable: for every score value c the c-scored entries of ps
are an initial segment of the c-scored entries of sentence_scores, which is
built in corpus iteration order. -/
theorem c4_relevance_sorted_capped (qW : List Str) (oq : Str) :
    ∃ ps : List (Nat × Str),
      find_relevant_context qW oq = ps.map Prod.snd ∧
      ps.length ≤ 5 ∧
      (∀ p ∈ ps, 0 < p.1 ∧ p ∈ sentence_scores qW oq) ∧
      List.Pairwise (fun a b => b.1 ≤ a.1) ps ∧
      (∀ c : Nat, ∃ t, ps.filter (fun p => p.1 == c) ++ t =
        (sentence_scores qW oq).filter (fun p => p.1 == c)) := by
  refine ⟨(sortDesc (sentence_scores qW oq)).take 5, rfl, ?_, ?_, ?_, ?_⟩
  · simp
  · intro p hp
    have hs : p ∈ sortDesc (sentence_scores qW oq) := (List.take_subset 5 _) hp
    have hm : p ∈ sentence_scores qW oq := mem_sortDesc p _ hs
    exact ⟨sentence_scores_pos qW oq p hm, hm⟩
  · exact List.Pairwise.sublist (List.take_sublist 5 _) (sorted_sortDesc _)
  · intro c
    refine ⟨((sortDesc (sentence_scores qW oq)).drop 5).filter (fun p => p.1 == c), ?_⟩
    rw [← List.filter_append, List.take_append_drop, filter_sortDesc]
